import Mathlib

/-
Shallow embedding of the OAuthProvider orchestrator of the atproto OAuth
authorization server (src/unnamed/part_000).  Collaborating managers
(ReplayManager, RequestManager, AccountManager, TokenManager, ClientManager)
are store-backed interfaces that are out of scope of the source file; their
call results are passed to the embedded provider methods as explicit oracle
arguments, exactly where the source awaits them.
-/

namespace AtOAuth

/-- Modelled from the spec: the error classes under errors/ are not part of
src/.  Per spec section 7, the AccessDeniedError family comprises the
user-interaction errors: access_denied itself and its subclasses
login_required, consent_required, account_selection_required, and the
invalid-parameters error (whose wire code is invalid_request, see spec
section 8 property 5: a JAR jti replay fails with invalid_request). -/
inductive AccessDeniedKind where
  | accessDenied
  | loginRequired
  | consentRequired
  | accountSelectionRequired
  | invalidParameters
  deriving DecidableEq, Repr

/-- Modelled from the spec: wire error code of each AccessDeniedError
subclass (spec section 7 error taxonomy). -/
def AccessDeniedKind.code : AccessDeniedKind → String
  | .accessDenied => "access_denied"
  | .loginRequired => "login_required"
  | .consentRequired => "consent_required"
  | .accountSelectionRequired => "account_selection_required"
  | .invalidParameters => "invalid_request"

/-- Modelled from the spec: the OAuth error taxonomy of spec section 7.  The
accessDenied constructor covers the whole AccessDeniedError class family; the
other constructors are the non-user-interaction errors thrown by the provider
code under src/. -/
inductive OAuthError where
  | invalidRequest (desc : String)
  | invalidClient (desc : String)
  | invalidGrant (desc : String)
  | unauthorizedClient (desc : String)
  | accessDenied (kind : AccessDeniedKind) (desc : String)
  | serverError (desc : String)
  deriving DecidableEq, Repr

/-- Wire error code of an error (the "error" member of the error body). -/
def OAuthError.code : OAuthError → String
  | .invalidRequest _ => "invalid_request"
  | .invalidClient _ => "invalid_client"
  | .invalidGrant _ => "invalid_grant"
  | .unauthorizedClient _ => "unauthorized_client"
  | .accessDenied k _ => k.code
  | .serverError _ => "server_error"

/-- Error description (the "error_description" member of the error body). -/
def OAuthError.desc : OAuthError → String
  | .invalidRequest d => d
  | .invalidClient d => d
  | .invalidGrant d => d
  | .unauthorizedClient d => d
  | .accessDenied _ d => d
  | .serverError d => d

/-- Membership in the AccessDeniedError class family (the instanceof
AccessDeniedError test of the source). -/
def OAuthError.isAccessDenied : OAuthError → Bool
  | .accessDenied _ _ => true
  | _ => false

/-- The InvalidParametersError thrown by decodeJAR; an AccessDeniedError
subclass with wire code invalid_request (modelled from the spec, see
AccessDeniedKind). -/
def invalidParametersError (d : String) : OAuthError :=
  .accessDenied .invalidParameters d

/-- Modelled from the spec: default descriptions of the user-interaction
errors thrown during authorize (their classes are not under src/). -/
def loginRequiredError : OAuthError :=
  .accessDenied .loginRequired "Login is required"

/-- Modelled from the spec: the ConsentRequiredError value. -/
def consentRequiredError : OAuthError :=
  .accessDenied .consentRequired "Consent is required"

/-- Modelled from the spec: the AccountSelectionRequiredError value. -/
def accountSelectionRequiredError : OAuthError :=
  .accessDenied .accountSelectionRequired "Account selection is required"

/-- Device-account session data used by OAuthProvider.loginRequired.
authenticatedAtTime is info.authenticatedAt.getTime() in milliseconds;
none models an invalid Date (getTime() = NaN, hence a non-finite age). -/
structure DeviceAccountInfo where
  authenticatedAtTime : Option Int
  authorizedClients : List String
  deriving DecidableEq, Repr

/-- OAuthProvider.loginRequired (src/unnamed/part_000 lines 360-374).
authAge = (Date.now() - authenticatedAt.getTime()) / 1e3 in seconds; the
fool-proof branch returns true when the age is not finite (invalid date) or
negative (authenticatedAt in the future); otherwise the session requires a
login iff authAge >= authenticationMaxAge. -/
def loginRequired (authenticationMaxAge : ℚ) (now : Int)
    (info : DeviceAccountInfo) : Bool :=
  match info.authenticatedAtTime with
  | none => true
  | some t =>
    let authAge : ℚ := ((now - t : ℤ) : ℚ) / 1000
    if authAge < 0 then true
    else decide (authenticationMaxAge ≤ authAge)

/-- C5 (amended): a session is fresh (loginRequired = false) iff its
authenticatedAt is a valid date and 0 ≤ (now - authenticatedAt)/1000 < Δ;
and whenever (now - authenticatedAt)/1000 ≥ Δ the session yields
loginRequired = true. -/
theorem C5_login_required_amended (Δ : ℚ) (now : Int)
    (info : DeviceAccountInfo) :
    (loginRequired Δ now info = false ↔
      ∃ t, info.authenticatedAtTime = some t ∧
        0 ≤ ((now - t : ℤ) : ℚ) / 1000 ∧ ((now - t : ℤ) : ℚ) / 1000 < Δ) ∧
    (∀ t, info.authenticatedAtTime = some t →
      Δ ≤ ((now - t : ℤ) : ℚ) / 1000 → loginRequired Δ now info = true) := by
  constructor
  · cases h : info.authenticatedAtTime with
    | none => simp [loginRequired, h]
    | some t =>
      simp only [loginRequired, h]
      split_ifs with hneg
      · simp only [show (true = false) ↔ False by simp, false_iff]
        rintro ⟨t', ht', hnn, -⟩
        rw [Option.some.injEq] at ht'
        subst ht'
        linarith
      · constructor
        · intro hdec
          refine ⟨t, rfl, not_lt.mp hneg, ?_⟩
          have := of_decide_eq_false hdec
          exact not_le.mp this
        · rintro ⟨t', ht', -, hlt⟩
          rw [Option.some.injEq] at ht'
          subst ht'
          rw [decide_eq_false_iff_not]
          intro hge
          exact absurd hlt (not_lt.mpr hge)
  · intro t ht hge
    simp only [loginRequired, ht]
    split_ifs with hneg
    · rfl
    · rw [decide_eq_true_eq]
      exact hge

/-- C5 witness: a session authenticated 120 seconds ago with Δ = 60 yields
loginRequired = true. -/
theorem C5_login_required_amended_witness :
    loginRequired 60 0 ⟨some (-120000), []⟩ = true :=
  (C5_login_required_amended 60 0 ⟨some (-120000), []⟩).2 (-120000) rfl
    (by norm_num)

/-- C5 counterexample to the claim as stated: a session whose
authenticatedAt lies 1 second in the future has age (now - authenticatedAt)
= -1 second, which is < Δ = 60, yet loginRequired = true, so freshness is
not equivalent to (now - authenticatedAt) < Δ. -/
theorem C5_fresh_iff_counterexample :
    loginRequired 60 0 ⟨some 1000, []⟩ = true ∧
      ((0 - 1000 : ℤ) : ℚ) / 1000 < 60 := by
  constructor
  · simp only [loginRequired]
    norm_num
  · norm_num

/-- C9: loginRequired returns true whenever the computed authentication age
is not a finite non-negative number, i.e. the session's authenticatedAt is an
invalid date (getTime() = NaN) or lies in the future relative to now,
regardless of authenticationMaxAge. -/
theorem C9_login_required_foolproof (Δ : ℚ) (now : Int)
    (info : DeviceAccountInfo)
    (h : info.authenticatedAtTime = none ∨
      ∃ t, info.authenticatedAtTime = some t ∧
        ((now - t : ℤ) : ℚ) / 1000 < 0) :
    loginRequired Δ now info = true := by
  rcases h with h | ⟨t, ht, hneg⟩
  · simp [loginRequired, h]
  · simp only [loginRequired, ht]
    rw [if_pos hneg]

/-- C9 witness: an invalid authenticatedAt date forces loginRequired = true
even with a large authenticationMaxAge. -/
theorem C9_login_required_foolproof_witness :
    loginRequired 604800 0 ⟨none, []⟩ = true :=
  C9_login_required_foolproof 604800 0 ⟨none, []⟩ (Or.inl rfl)

/-- Client metadata fields of the source used by the provider. -/
structure ClientMetadata where
  application_type : String
  grant_types : List String
  deriving DecidableEq, Repr

/-- A resolved client (ClientManager.getClient result). -/
structure Client where
  id : String
  metadata : ClientMetadata
  deriving DecidableEq, Repr

/-- How the client authenticated on this request. -/
structure ClientAuth where
  method : String
  deriving DecidableEq, Repr

/-- OAuthProvider.authenticateClient (src/unnamed/part_000 lines 376-411)
after client.verifyCredentials succeeded.  client and clientAuth/nonce are
the results of getClient and verifyCredentials; uniqueAuth is the result of
replayManager.uniqueAuth(nonce, client.id), consulted only when a nonce is
present. -/
def authenticateClient (client : Client) (clientAuth : ClientAuth)
    (nonce : Option String) (uniqueAuth : Bool) :
    Except OAuthError (Client × ClientAuth) :=
  if client.metadata.application_type = "native" ∧ clientAuth.method ≠ "none"
  then
    .error (.invalidGrant "Native clients must authenticate using \"none\" method")
  else
    match nonce with
    | none => .ok (client, clientAuth)
    | some _ =>
      if uniqueAuth then .ok (client, clientAuth)
      else .error (.invalidGrant (clientAuth.method ++ " jti reused"))

/-- C3: a client whose metadata has application_type "native" is rejected
with an invalid_grant error whenever its client-auth method is not "none". -/
theorem C3_native_client_auth_rejected (client : Client)
    (clientAuth : ClientAuth) (nonce : Option String) (uniqueAuth : Bool)
    (h1 : client.metadata.application_type = "native")
    (h2 : clientAuth.method ≠ "none") :
    authenticateClient client clientAuth nonce uniqueAuth =
      .error (.invalidGrant
        "Native clients must authenticate using \"none\" method") := by
  simp [authenticateClient, h1, h2]

/-- C3 witness: a native client presenting private_key_jwt credentials is
rejected with invalid_grant. -/
theorem C3_native_client_auth_rejected_witness :
    authenticateClient ⟨"https://app.example", ⟨"native", ["authorization_code"]⟩⟩
      ⟨"private_key_jwt"⟩ (some "jti1") true =
      .error (.invalidGrant
        "Native clients must authenticate using \"none\" method") :=
  C3_native_client_auth_rejected
    ⟨"https://app.example", ⟨"native", ["authorization_code"]⟩⟩
    ⟨"private_key_jwt"⟩ (some "jti1") true rfl (by decide)

/-- Validated authorization-request parameters (the fields of
OAuthAuthorizationRequestParameters that the provider code reads). -/
structure Params where
  prompt : Option String
  login_hint : Option String
  code_challenge : Option String
  scope : Option String
  deriving DecidableEq, Repr

/-- Outcome of client.decodeRequestObject: a JAR verified against a key of
the client JWKS (with its protected header and key thumbprint), or a JAR
that was accepted unsigned (plain header). -/
inductive JarVerifyResult where
  | signed (kid : Option String) (alg : String) (jkt : String)
  | unsigned
  deriving DecidableEq, Repr

/-- Result of OAuthProvider.decodeJAR. -/
structure DecodedJar where
  payload : Params
  kid : Option String
  alg : Option String
  jkt : Option String
  deriving DecidableEq, Repr

/-- OAuthProvider.decodeJAR (src/unnamed/part_000 lines 413-468).  payload is
the parsed request-object payload, rawJti its jti claim (none when absent or
empty), uniqueJar the result of replayManager.uniqueJar(jti, client.id), and
verify the shape of the decodeRequestObject result. -/
def decodeJAR (payload : Params) (rawJti : Option String) (uniqueJar : Bool)
    (verify : JarVerifyResult) : Except OAuthError DecodedJar :=
  match rawJti with
  | none =>
    .error (invalidParametersError "Request object must contain a jti claim")
  | some _ =>
    if uniqueJar then
      match verify with
      | .signed none _ _ =>
        .error (invalidParametersError "Missing \"kid\" in header")
      | .signed (some kid) alg jkt =>
        .ok ⟨payload, some kid, some alg, some jkt⟩
      | .unsigned => .ok ⟨payload, none, none, none⟩
    else
      .error (invalidParametersError "Request object jti is not unique")

/-- A pushed authorization request response. -/
structure ParResponse where
  request_uri : String
  expires_in : Int
  deriving DecidableEq, Repr

/-- The error-propagation wrapper of OAuthProvider.pushedAuthorizationRequest
(src/unnamed/part_000 lines 473-509): body is the outcome of the try block
(client authentication, JAR decoding and request creation); any error of the
AccessDeniedError family is rethrown as an InvalidRequestError carrying the
same description. -/
def pushedAuthorizationRequest (body : Except OAuthError ParResponse) :
    Except OAuthError ParResponse :=
  match body with
  | .ok v => .ok v
  | .error e =>
    if e.isAccessDenied then .error (.invalidRequest e.desc)
    else .error e

/-- C6: at the PAR endpoint, every error of the AccessDeniedError family
(access_denied and its subclasses login_required, consent_required,
account_selection_required, invalid-parameters) raised while processing the
request is converted into an invalid_request error with the same
description. -/
theorem C6_par_access_denied_downgrade (k : AccessDeniedKind) (d : String) :
    pushedAuthorizationRequest (.error (.accessDenied k d)) =
      .error (.invalidRequest d) ∧
    (OAuthError.invalidRequest d).code = "invalid_request" := by
  constructor
  · simp [pushedAuthorizationRequest, OAuthError.isAccessDenied,
      OAuthError.desc]
  · rfl

/-- Result of requestManager.findCode: the code was found, matched the
client and client-auth method, and was atomically consumed. -/
structure FindCodeResult where
  sub : String
  deviceId : String
  parameters : Params
  deriving DecidableEq, Repr

/-- A successful token-endpoint response. -/
structure TokenResponse where
  access_token : String
  refresh_token : Option String
  scope : Option String
  deriving DecidableEq, Repr

/-- Results of the collaborator calls awaited by OAuthProvider.codeGrant, in
source order: codeSchema.parse(input.code), requestManager.findCode,
replayManager.uniqueCodeChallenge(parameters.code_challenge),
accountManager.get(deviceId, sub) and tokenManager.create. -/
structure CodeGrantOracle where
  parseCode : Except OAuthError String
  findCode : Except OAuthError FindCodeResult
  uniqueCodeChallenge : Bool
  accountGet : Except OAuthError String
  tokenCreate : Except OAuthError TokenResponse
  deriving Repr

/-- The try block of OAuthProvider.codeGrant (src/unnamed/part_000 lines
914-960): parse the code, find and consume it, guard the PKCE
code_challenge against replay (only when the request carried one), load the
account and create the tokens. -/
def codeGrantBody (o : CodeGrantOracle) : Except OAuthError TokenResponse :=
  match o.parseCode with
  | .error e => .error e
  | .ok _ =>
    match o.findCode with
    | .error e => .error e
    | .ok found =>
      match found.parameters.code_challenge with
      | some _ =>
        if o.uniqueCodeChallenge then
          match o.accountGet with
          | .error e => .error e
          | .ok _ => o.tokenCreate
        else .error (.invalidGrant "code_challenge")
      | none =>
        match o.accountGet with
        | .error e => .error e
        | .ok _ => o.tokenCreate

/-- OAuthProvider.codeGrant (src/unnamed/part_000 lines 907-972).  The
second component records whether the catch block ran, i.e. whether
tokenManager.revoke(input.code) was invoked before the error was
rethrown. -/
def codeGrant (o : CodeGrantOracle) :
    Except OAuthError TokenResponse × Bool :=
  match codeGrantBody o with
  | .ok r => (.ok r, false)
  | .error e => (.error e, true)

/-- The code_challenge replay guard of codeGrant passes: either the request
carried no code_challenge or the challenge was fresh. -/
def challengePasses (o : CodeGrantOracle) (found : FindCodeResult) : Prop :=
  found.parameters.code_challenge = none ∨ o.uniqueCodeChallenge = true

/-- C10: whenever any step of codeGrant after parsing the code fails (the
code lookup, the code_challenge replay guard, the account lookup or the
token creation), tokenManager.revoke is invoked on the presented code and
the original error propagates. -/
theorem C10_code_grant_revokes_on_failure (o : CodeGrantOracle) (c : String)
    (e : OAuthError) (hp : o.parseCode = .ok c)
    (h : o.findCode = .error e ∨
      (∃ found cc, o.findCode = .ok found ∧
        found.parameters.code_challenge = some cc ∧
        o.uniqueCodeChallenge = false ∧ e = .invalidGrant "code_challenge") ∨
      (∃ found, o.findCode = .ok found ∧ challengePasses o found ∧
        o.accountGet = .error e) ∨
      (∃ found a, o.findCode = .ok found ∧ challengePasses o found ∧
        o.accountGet = .ok a ∧ o.tokenCreate = .error e)) :
    codeGrant o = (.error e, true) := by
  rcases h with h | ⟨found, cc, hf, hcc, hu, he⟩ |
      ⟨found, hf, hch, ha⟩ | ⟨found, a, hf, hch, ha, ht⟩
  · simp [codeGrant, codeGrantBody, hp, h]
  · subst he
    simp [codeGrant, codeGrantBody, hp, hf, hcc, hu]
  · rcases hch with hch | hch
    · simp [codeGrant, codeGrantBody, hp, hf, hch, ha]
    · cases hcc : found.parameters.code_challenge with
      | none => simp [codeGrant, codeGrantBody, hp, hf, hcc, ha]
      | some cc => simp [codeGrant, codeGrantBody, hp, hf, hcc, hch, ha]
  · rcases hch with hch | hch
    · simp [codeGrant, codeGrantBody, hp, hf, hch, ha, ht]
    · cases hcc : found.parameters.code_challenge with
      | none => simp [codeGrant, codeGrantBody, hp, hf, hcc, ha, ht]
      | some cc => simp [codeGrant, codeGrantBody, hp, hf, hcc, hch, ha, ht]

/-- C10 witness: a replayed (already consumed) code makes findCode fail;
codeGrant then both revokes the code lineage and propagates the error. -/
theorem C10_code_grant_revokes_on_failure_witness :
    codeGrant ⟨.ok "code1", .error (.invalidGrant "Invalid code"), true,
        .ok "did:example:alice", .ok ⟨"at1", some "rt1", some "atproto"⟩⟩ =
      (.error (.invalidGrant "Invalid code"), true) :=
  C10_code_grant_revokes_on_failure
    ⟨.ok "code1", .error (.invalidGrant "Invalid code"), true,
      .ok "did:example:alice", .ok ⟨"at1", some "rt1", some "atproto"⟩⟩
    "code1" (.invalidGrant "Invalid code") rfl (Or.inl rfl)

/-- C1 (amended): a false result of replayManager.uniqueAuth on a
client-assertion jti fails authenticateClient with an invalid_grant error,
and a false result of replayManager.uniqueCodeChallenge fails codeGrant
with an invalid_grant error (revoking the code), but a false result of
replayManager.uniqueJar fails decodeJAR with the invalid-parameters error,
whose wire code is invalid_request, not invalid_grant. -/
theorem C1_replay_failure_errors_amended :
    (∀ (client : Client) (clientAuth : ClientAuth) (n : String),
      ∃ d, authenticateClient client clientAuth (some n) false =
        .error (.invalidGrant d)) ∧
    (∀ (o : CodeGrantOracle) (c : String) (found : FindCodeResult)
      (cc : String), o.parseCode = .ok c → o.findCode = .ok found →
      found.parameters.code_challenge = some cc →
      o.uniqueCodeChallenge = false →
      codeGrant o = (.error (.invalidGrant "code_challenge"), true)) ∧
    (∀ (payload : Params) (j : String) (v : JarVerifyResult),
      decodeJAR payload (some j) false v =
        .error (invalidParametersError "Request object jti is not unique") ∧
      (invalidParametersError "Request object jti is not unique").code =
        "invalid_request") := by
  refine ⟨?_, ?_, ?_⟩
  · intro client clientAuth n
    by_cases h : client.metadata.application_type = "native" ∧
        clientAuth.method ≠ "none"
    · exact ⟨"Native clients must authenticate using \"none\" method",
        by simp [authenticateClient, h]⟩
    · exact ⟨clientAuth.method ++ " jti reused",
        by simp [authenticateClient, h]⟩
  · intro o c found cc hp hf hcc hu
    simp [codeGrant, codeGrantBody, hp, hf, hcc, hu]
  · intro payload j v
    exact ⟨by simp [decodeJAR], rfl⟩

/-- C1 amended witness: concrete instances of the three replay-failure
outcomes, obtained from the amended theorem. -/
theorem C1_replay_failure_errors_amended_witness :
    codeGrant ⟨.ok "code1",
        .ok ⟨"did:example:alice", "dev1", ⟨none, none, some "ch1", none⟩⟩,
        false, .ok "did:example:alice",
        .ok ⟨"at1", none, none⟩⟩ =
      (.error (.invalidGrant "code_challenge"), true) :=
  C1_replay_failure_errors_amended.2.1
    ⟨.ok "code1",
      .ok ⟨"did:example:alice", "dev1", ⟨none, none, some "ch1", none⟩⟩,
      false, .ok "did:example:alice", .ok ⟨"at1", none, none⟩⟩
    "code1" ⟨"did:example:alice", "dev1", ⟨none, none, some "ch1", none⟩⟩
    "ch1" rfl rfl rfl rfl

/-- C1 counterexample to the claim as stated: a replayed JAR jti makes
decodeJAR fail with an error whose wire code is invalid_request, not
invalid_grant, and the PAR flow then rethrows it as an InvalidRequestError,
so the uniqueJar site does not fail with invalid_grant. -/
theorem C1_jar_replay_counterexample :
    decodeJAR ⟨none, none, none, none⟩ (some "jti1") false .unsigned =
      .error (invalidParametersError "Request object jti is not unique") ∧
    (invalidParametersError "Request object jti is not unique").code ≠
      "invalid_grant" ∧
    pushedAuthorizationRequest
        (.error (invalidParametersError "Request object jti is not unique")) =
      .error (.invalidRequest "Request object jti is not unique") := by
  refine ⟨by simp [decodeJAR], by decide, rfl⟩

/-- One entry of the OAuthProvider.getSessions result: a device-bound
account together with the selected / loginRequired / consentRequired /
matchesHint flags computed for the current request. -/
structure Session where
  accountSub : String
  selected : Bool
  loginRequired : Bool
  consentRequired : Bool
  matchesHint : Bool
  deriving DecidableEq, Repr

/-- Outcome of a successful authorize call: an immediate redirect carrying
an authorization code, or the interactive authorize page. -/
inductive AuthorizeOutcome where
  | redirect (code : String)
  | authorizePage
  deriving DecidableEq, Repr

/-- Modelled from the spec: AccessDeniedError.from (errors/ is not under
src/).  Per spec section 7, an error raised after the redirect_uri was
validated is wrapped into an access_denied-with-redirect; an error already
of the AccessDeniedError family keeps its class and code. -/
def accessDeniedFrom (e : OAuthError) : OAuthError :=
  if e.isAccessDenied then e else .accessDenied .accessDenied e.desc

/-- The session-dispatch core of OAuthProvider.authorize (src/unnamed/part_000
lines 605-678), the try block after getSessions returned: prompt=none
selects among the hint-matching SSO sessions or fails with a
user-interaction error; absent prompt with a login_hint auto-authorizes a
unique eligible match; otherwise the authorize page is shown.  setAuthorized
is the result of requestManager.setAuthorized. -/
def authorizeDecision (parameters : Params) (sessions : List Session)
    (setAuthorized : Except OAuthError String) :
    Except OAuthError AuthorizeOutcome :=
  if parameters.prompt = some "none" then
    match sessions.filter (fun x => x.matchesHint) with
    | [] => .error loginRequiredError
    | [s] =>
      if s.loginRequired then .error loginRequiredError
      else if s.consentRequired then .error consentRequiredError
      else
        match setAuthorized with
        | .ok code => .ok (.redirect code)
        | .error e => .error e
    | _ :: _ :: _ => .error accountSelectionRequiredError
  else if parameters.prompt = none ∧ parameters.login_hint ≠ none then
    match sessions.filter (fun x => x.matchesHint) with
    | [s] =>
      if !s.loginRequired && !s.consentRequired then
        match setAuthorized with
        | .ok code => .ok (.redirect code)
        | .error e => .error e
      else .ok .authorizePage
    | _ => .ok .authorizePage
  else .ok .authorizePage

/-- OAuthProvider.authorize (src/unnamed/part_000 lines 578-686): the
decision core wrapped in the catch block that deletes the request (modelled
as succeeding; delete is idempotent per spec section 4.3) and rethrows the
error through AccessDeniedError.from. -/
def authorize (parameters : Params) (sessions : List Session)
    (setAuthorized : Except OAuthError String) :
    Except OAuthError AuthorizeOutcome :=
  match authorizeDecision parameters sessions setAuthorized with
  | .ok v => .ok v
  | .error e => .error (accessDeniedFrom e)

/-- C2: with prompt=none, more than one hint-matching session fails with
account_selection_required; none fails with login_required; a single match
needing login fails with login_required; a single match needing consent
fails with consent_required; and a single match needing neither yields a
redirect carrying the code from setAuthorized. -/
theorem C2_authorize_prompt_none (parameters : Params)
    (sessions : List Session) (setAuthorized : Except OAuthError String)
    (hp : parameters.prompt = some "none") :
    (∀ a b l, sessions.filter (fun x => x.matchesHint) = a :: b :: l →
      authorize parameters sessions setAuthorized =
        .error accountSelectionRequiredError) ∧
    (sessions.filter (fun x => x.matchesHint) = [] →
      authorize parameters sessions setAuthorized =
        .error loginRequiredError) ∧
    (∀ s, sessions.filter (fun x => x.matchesHint) = [s] →
      s.loginRequired = true →
      authorize parameters sessions setAuthorized =
        .error loginRequiredError) ∧
    (∀ s, sessions.filter (fun x => x.matchesHint) = [s] →
      s.loginRequired = false → s.consentRequired = true →
      authorize parameters sessions setAuthorized =
        .error consentRequiredError) ∧
    (∀ s code, sessions.filter (fun x => x.matchesHint) = [s] →
      s.loginRequired = false → s.consentRequired = false →
      setAuthorized = .ok code →
      authorize parameters sessions setAuthorized =
        .ok (.redirect code)) := by
  refine ⟨?_, ?_, ?_, ?_, ?_⟩
  · intro a b l hf
    simp [authorize, authorizeDecision, hp, hf, accessDeniedFrom,
      accountSelectionRequiredError, OAuthError.isAccessDenied]
  · intro hf
    simp [authorize, authorizeDecision, hp, hf, accessDeniedFrom,
      loginRequiredError, OAuthError.isAccessDenied]
  · intro s hf hl
    simp [authorize, authorizeDecision, hp, hf, hl, accessDeniedFrom,
      loginRequiredError, OAuthError.isAccessDenied]
  · intro s hf hl hc
    simp [authorize, authorizeDecision, hp, hf, hl, hc, accessDeniedFrom,
      consentRequiredError, OAuthError.isAccessDenied]
  · intro s code hf hl hc hsa
    simp [authorize, authorizeDecision, hp, hf, hl, hc, hsa]

/-- C2 witness: concrete prompt=none instances for the redirect case and the
account_selection_required case. -/
theorem C2_authorize_prompt_none_witness :
    authorize ⟨some "none", some "did:example:alice", none, none⟩
        [⟨"did:example:alice", true, false, false, true⟩]
        (.ok "code1") =
      .ok (.redirect "code1") ∧
    authorize ⟨some "none", none, none, none⟩
        [⟨"did:example:alice", false, false, false, true⟩,
         ⟨"did:example:bob", false, false, false, true⟩]
        (.ok "code1") =
      .error accountSelectionRequiredError :=
  ⟨(C2_authorize_prompt_none ⟨some "none", some "did:example:alice", none, none⟩
      [⟨"did:example:alice", true, false, false, true⟩] (.ok "code1")
      rfl).2.2.2.2
      ⟨"did:example:alice", true, false, false, true⟩ "code1" rfl rfl rfl rfl,
   (C2_authorize_prompt_none ⟨some "none", none, none, none⟩
      [⟨"did:example:alice", false, false, false, true⟩,
       ⟨"did:example:bob", false, false, false, true⟩] (.ok "code1")
      rfl).1
      ⟨"did:example:alice", false, false, false, true⟩
      ⟨"did:example:bob", false, false, false, true⟩ [] rfl⟩

/-- C7: with no prompt parameter and a login_hint present, a single
hint-matching session requiring neither login nor consent is
auto-authorized: the result is a redirect carrying the code from
setAuthorized. -/
theorem C7_authorize_auto_sso (parameters : Params)
    (sessions : List Session) (s : Session) (code : String)
    (hp : parameters.prompt = none) (hh : parameters.login_hint ≠ none)
    (hf : sessions.filter (fun x => x.matchesHint) = [s])
    (hl : s.loginRequired = false)
    (hc : s.consentRequired = false) :
    authorize parameters sessions (.ok code) = .ok (.redirect code) := by
  simp [authorize, authorizeDecision, hp, hh, hf, hl, hc]

/-- C7 witness: a unique fresh, consented session matching the login_hint is
auto-authorized without a consent screen. -/
theorem C7_authorize_auto_sso_witness :
    authorize ⟨none, some "did:example:alice", none, none⟩
        [⟨"did:example:alice", true, false, false, true⟩] (.ok "code7") =
      .ok (.redirect "code7") :=
  C7_authorize_auto_sso ⟨none, some "did:example:alice", none, none⟩
    [⟨"did:example:alice", true, false, false, true⟩]
    ⟨"did:example:alice", true, false, false, true⟩ "code7"
    rfl (by decide) rfl rfl rfl

/-- Data of an active token as read by introspect from
tokenManager.clientTokenInfo. -/
structure TokenInfoData where
  scope : Option String
  clientId : String
  sub : String
  deriving DecidableEq, Repr

/-- An RFC 7662 introspection response: the active response with the token
data, or the bare inactive response. -/
inductive IntrospectionResponse where
  | active (scope : Option String) (clientId : String) (sub : String)
  | inactive
  deriving DecidableEq, Repr

/-- OAuthProvider.introspect (src/unnamed/part_000 lines 1002-1052) after
authenticateClient succeeded with the given clientAuth method: a "none"
method is rejected; otherwise any error of the clientTokenInfo call (of any
error type ε) is swallowed and answered with the inactive response after the
timing pad. -/
def introspect {ε : Type} (clientAuthMethod : String)
    (tokenInfo : Except ε TokenInfoData) :
    Except OAuthError IntrospectionResponse :=
  if clientAuthMethod = "none" then
    .error (.unauthorizedClient "Client authentication required")
  else
    match tokenInfo with
    | .ok ti => .ok (.active ti.scope ti.clientId ti.sub)
    | .error _ => .ok .inactive

/-- C4: for an authenticated introspection call, any error occurring while
processing the presented token yields the response with active = false
rather than an error response, whatever the error was. -/
theorem C4_introspect_error_inactive {ε : Type} (clientAuthMethod : String)
    (e : ε) (h : clientAuthMethod ≠ "none") :
    introspect clientAuthMethod (.error e) = .ok .inactive := by
  simp [introspect, h]

/-- C4 witness: a failing token lookup under private_key_jwt client auth
yields the inactive response. -/
theorem C4_introspect_error_inactive_witness :
    introspect "private_key_jwt" (.error (0 : Nat)) =
      .ok IntrospectionResponse.inactive :=
  C4_introspect_error_inactive "private_key_jwt" 0 (by decide)

/-- Modelled from the spec: buildErrorStatus (output/ is not under src/);
spec section 6 picks the status from 400/401/403/405, with invalid_client
answered with 401. -/
def buildErrorStatus (e : OAuthError) : Nat :=
  match e with
  | .invalidClient _ => 401
  | _ => 400

/-- Body of a response of the POST /oauth/revoke handler. -/
inductive RevokeBody where
  | success
  | oauthError (e : OAuthError)
  | notAcceptable
  deriving DecidableEq, Repr

/-- The POST /oauth/revoke handler (src/unnamed/part_000 lines 1468-1485,
composed with jsonHandler lines 1148-1180): after content negotiation and
parsing of the token identification, server.revoke is awaited inside a try
block whose catch only logs, and the empty success payload is returned with
the default status 200 whatever the revoke outcome was. -/
def revokePostHandler {ε : Type} (negotiated : Bool)
    (parsed : Except OAuthError String) (revokeResult : Except ε Unit) :
    Nat × RevokeBody :=
  if negotiated then
    match parsed with
    | .error e => (buildErrorStatus e, .oauthError e)
    | .ok _ =>
      match revokeResult with
      | .ok _ => (200, .success)
      | .error _ => (200, .success)
  else (406, .notAcceptable)

/-- C8: the POST /oauth/revoke handler responds with status 200 and the
success body for every outcome of the underlying revoke operation,
including failure. -/
theorem C8_revoke_always_200 {ε : Type} (token : String)
    (revokeResult : Except ε Unit) :
    revokePostHandler true (.ok token) revokeResult = (200, .success) := by
  cases revokeResult <;> rfl

end AtOAuth
